import Mathlib

/-!
Shallow embedding of the maze POMDP domain model
(`pomdp_py/problems/maze`): geometry (`MazeMap`), stochastic transition
model, deterministic observation model, and reward model, together with
theorems settling the specification claims.

Python floats carrying probabilities and rewards are modelled as exact
rationals; the Python `dict` keyed by direction strings is modelled as an
association list; fallible dictionary indexing is modelled with `Option`.
-/

namespace Maze

/-- A grid cell `(x, y)`, Python tuple of ints. -/
abbrev Pos := Int × Int

/-- A wall segment `[(x1, y1), (x2, y2)]`. -/
abbrev Segment := Pos × Pos

/-- `MazeMap` from `models/components/map.py`: start cell, goal cell and a
dictionary mapping a direction name to the list of wall segments in that
direction. -/
structure MazeMap where
  start : Pos
  goal : Pos
  walls : List (String × List Segment)
deriving DecidableEq

/-- The four canonical direction names (`valid_dirs` in `_validate_walls`). -/
def valid_dirs : List String := ["North", "East", "South", "West"]

/-- The check performed by `MazeMap._validate_walls`:
`all(d in valid_dirs for d in self.walls.keys())`. -/
def MazeMap.validate_walls_ok (m : MazeMap) : Bool :=
  m.walls.all (fun kv => valid_dirs.contains kv.1)

/-- `MazeMap.__init__`: stores the three arguments, then validates the wall
directions, raising `ValueError` (modelled as `Except.error`) when a key is
outside the four canonical directions. -/
def MazeMap.make (start goal : Pos) (walls : List (String × List Segment)) :
    Except String MazeMap :=
  let m : MazeMap := ⟨start, goal, walls⟩
  if m.validate_walls_ok then Except.ok m
  else Except.error "Wall directions must be in valid_dirs"

/-- `MazeMap._is_on_segment`: normalizes the segment endpoints with
`min`/`max` and tests inclusive bounding-box containment of `position`.
The `direction` argument is accepted but unused, as in the source. -/
def MazeMap.is_on_segment (position : Pos) (segment : Segment)
    (direction : String) : Bool :=
  let x := position.1
  let y := position.2
  let min_x := min segment.1.1 segment.2.1
  let max_x := max segment.1.1 segment.2.1
  let min_y := min segment.1.2 segment.2.2
  let max_y := max segment.1.2 segment.2.2
  let _ := direction
  if min_x ≤ x ∧ x ≤ max_x ∧ min_y ≤ y ∧ y ≤ max_y then true else false

/-- `MazeMap.has_wall`: `False` when `direction` is not a key of `walls`,
otherwise `True` iff some registered segment for that direction contains
`position`. -/
def MazeMap.has_wall (m : MazeMap) (position : Pos) (direction : String) :
    Bool :=
  match m.walls.lookup direction with
  | none => false
  | some segments =>
      segments.any (fun wall_segment =>
        MazeMap.is_on_segment position wall_segment direction)

/-- `State` from `domain/state.py`: robot position and orientation
(orientation is stored as one of the four canonical strings; equality and
hash are by value). -/
structure State where
  position : Pos
  orientation : String
deriving DecidableEq

/-- The four navigation actions from `domain/action.py`
(`MoveNorth`, `MoveSouth`, `MoveEast`, `MoveWest`). -/
inductive MazeAction where
  | moveNorth
  | moveSouth
  | moveEast
  | moveWest
deriving DecidableEq

/-- The `name` attribute each action subclass passes to
`MazeAction.__init__`. -/
def MazeAction.name : MazeAction → String
  | .moveNorth => "North"
  | .moveSouth => "South"
  | .moveEast => "East"
  | .moveWest => "West"

/-- `Observation` from `domain/observation.py`: a 4-tuple of wall booleans
in the order (North, East, South, West), the robot's orientation, and an
optional special-location tag (`"Start"`, `"Goal"` or `None`). -/
structure Observation where
  walls : Bool × Bool × Bool × Bool
  orientation : String
  location : Option String
deriving DecidableEq

/-- `Observation.is_goal`: rule-based detection — orientation `"South"`,
walls on North, East and West, no wall on South. -/
def Observation.is_goal (o : Observation) : Bool :=
  decide (o.orientation = "South") && o.walls.1 && o.walls.2.1 &&
    !o.walls.2.2.1 && o.walls.2.2.2

/-- `ObservationModel` from `models/observation_model.py`: holds the maze
map. -/
structure ObservationModel where
  maze_map : MazeMap

/-- `ObservationModel._get_observation`: wall flags for the four canonical
directions in the order (North, East, South, West), the state's
orientation, and the special-location tag — `"Goal"` when the position
equals the map's goal, else `"Start"` when it equals the start, else
`None`. -/
def ObservationModel.get_observation (om : ObservationModel) (state : State) :
    Observation :=
  let position := state.position
  let orientation := state.orientation
  let walls :=
    (om.maze_map.has_wall position "North",
     om.maze_map.has_wall position "East",
     om.maze_map.has_wall position "South",
     om.maze_map.has_wall position "West")
  let location : Option String :=
    if position = om.maze_map.goal then some "Goal"
    else if position = om.maze_map.start then some "Start"
    else none
  ⟨walls, orientation, location⟩

/-- `ObservationModel.sample`: deterministic — returns the expected
observation for `next_state` (the action is ignored). -/
def ObservationModel.sample (om : ObservationModel) (next_state : State)
    (action : MazeAction) : Observation :=
  let _ := action
  om.get_observation next_state

/-- `ObservationModel.probability`: 1.0 when the observation matches the
expected observation for the state, 0.0 otherwise. -/
def ObservationModel.probability (om : ObservationModel)
    (observation : Observation) (next_state : State) (action : MazeAction) :
    ℚ :=
  let _ := action
  let expected_obs := om.get_observation next_state
  if observation = expected_obs then 1 else 0

/-- `RewardModel` from `models/reward_model.py`: maze map plus the three
reward parameters (defaults `goal_reward=10`, `step_penalty=1`,
`wall_penalty=5`). -/
structure RewardModel where
  maze_map : MazeMap
  goal_reward : ℚ
  step_penalty : ℚ
  wall_penalty : ℚ

/-- `RewardModel._reward_func`: `goal_reward` when the next position is the
goal, else `-wall_penalty` when the position did not change, else
`-step_penalty`. -/
def RewardModel.reward_func (rm : RewardModel) (state : State)
    (action : MazeAction) (next_state : State) : ℚ :=
  let _ := action
  if next_state.position = rm.maze_map.goal then rm.goal_reward
  else if next_state.position = state.position then -rm.wall_penalty
  else -rm.step_penalty

/-- `RewardModel.sample`: deterministic — returns `_reward_func`. -/
def RewardModel.sample (rm : RewardModel) (state : State)
    (action : MazeAction) (next_state : State) : ℚ :=
  rm.reward_func state action next_state

/-- `TransitionModel` from `models/transition_model.py`: slip probability,
the derived main probability, and an optional maze map (unused by the
motion computation). -/
structure TransitionModel where
  slip_prob : ℚ
  main_prob : ℚ
  maze_map : Option MazeMap

/-- `TransitionModel.__init__`: stores `slip_prob`, sets
`main_prob = 1 - 2 * slip_prob`, stores `maze_map`. -/
def TransitionModel.make (slip_prob : ℚ) (maze_map : Option MazeMap) :
    TransitionModel :=
  ⟨slip_prob, 1 - 2 * slip_prob, maze_map⟩

/-- The `perpendicular` dictionary in
`TransitionModel._get_perpendicular_directions`; indexing a missing key
raises `KeyError`, modelled by the `Option` of `List.lookup`. -/
def get_perpendicular_directions (direction : String) :
    Option (List String) :=
  List.lookup direction
    [("North", ["East", "West"]),
     ("South", ["East", "West"]),
     ("East", ["North", "South"]),
     ("West", ["North", "South"])]

/-- `TransitionModel._move_in_direction`: the `move_map` dictionary indexed
at `direction`; one step North is `(x, y - 1)`, South `(x, y + 1)`, East
`(x + 1, y)`, West `(x - 1, y)`. -/
def move_in_direction (position : Pos) (direction : String) : Option Pos :=
  let x := position.1
  let y := position.2
  List.lookup direction
    [("North", (x, y - 1)),
     ("South", (x, y + 1)),
     ("East", (x + 1, y)),
     ("West", (x - 1, y))]

/-- `TransitionModel._get_transition_outcomes`: the main-direction outcome
with probability `main_prob` followed by the two perpendicular slip
outcomes, each with probability `slip_prob`; every outcome keeps the
state's orientation. -/
def TransitionModel.get_transition_outcomes (tm : TransitionModel)
    (state : State) (action : MazeAction) : Option (List (ℚ × State)) :=
  let action_dir := action.name
  match get_perpendicular_directions action_dir,
        move_in_direction state.position action_dir with
  | some perpendicular_dirs, some next_pos_main =>
      let next_state_main : State := ⟨next_pos_main, state.orientation⟩
      match perpendicular_dirs.mapM
          (fun slip_dir => move_in_direction state.position slip_dir) with
      | some slip_positions =>
          some ((tm.main_prob, next_state_main) ::
            slip_positions.map
              (fun next_pos_slip =>
                (tm.slip_prob, (⟨next_pos_slip, state.orientation⟩ : State))))
      | none => none
  | _, _ => none

/-- The scan in `TransitionModel.probability`: return the probability of
the first outcome equal to `next_state`, else `0.0`. -/
def find_outcome_prob (next_state : State) : List (ℚ × State) → ℚ
  | [] => 0
  | (prob, outcome_state) :: rest =>
      if next_state = outcome_state then prob
      else find_outcome_prob next_state rest

/-- `TransitionModel.probability`: `P(next_state | state, action)` via the
outcome scan. -/
def TransitionModel.probability (tm : TransitionModel) (next_state : State)
    (state : State) (action : MazeAction) : Option ℚ :=
  (tm.get_transition_outcomes state action).map
    (fun outcomes => find_outcome_prob next_state outcomes)

/-- The cumulative-probability selection loop in `TransitionModel.sample`:
accumulate probabilities and return the first outcome whose cumulative
probability reaches the draw; `none` models falling out of the loop. -/
def select_cumulative (rand : ℚ) : ℚ → List (ℚ × State) → Option State
  | _, [] => none
  | cumulative_prob, (prob, next_state) :: rest =>
      if rand ≤ cumulative_prob + prob then some next_state
      else select_cumulative rand (cumulative_prob + prob) rest

/-- `TransitionModel.sample` with the uniform draw `rand` made explicit:
cumulative selection over the outcomes, with the post-loop fallback
returning the last outcome's state. -/
def TransitionModel.sample (tm : TransitionModel) (state : State)
    (action : MazeAction) (rand : ℚ) : Option State :=
  match tm.get_transition_outcomes state action with
  | none => none
  | some outcomes =>
      match select_cumulative rand 0 outcomes with
      | some next_state => some next_state
      | none => (outcomes.getLast?).map Prod.snd

/-- `MazeMap.create_example_maze`: the example 11×7 maze, start `(5, 6)`,
goal `(5, 2)`, with the wall segments transcribed verbatim. -/
def create_example_maze : MazeMap :=
  ⟨(5, 6), (5, 2),
   [("North",
     [((0, 0), (10, 0)),
      ((0, 1), (1, 1)),
      ((3, 1), (8, 1)),
      ((0, 2), (3, 2)),
      ((6, 2), (8, 2)),
      ((10, 2), (10, 2)),
      ((0, 3), (2, 3)),
      ((4, 3), (5, 3)),
      ((8, 3), (8, 3)),
      ((0, 4), (0, 4)),
      ((3, 4), (5, 4)),
      ((8, 4), (10, 4)),
      ((1, 5), (2, 5)),
      ((4, 5), (5, 5)),
      ((8, 5), (8, 5))]),
    ("South",
     [((0, 7), (10, 7)),
      ((0, 2), (1, 2)),
      ((3, 2), (8, 2)),
      ((0, 3), (3, 3)),
      ((6, 3), (8, 3)),
      ((10, 3), (10, 3)),
      ((0, 4), (2, 4)),
      ((4, 4), (5, 4)),
      ((8, 4), (8, 4)),
      ((0, 5), (0, 5)),
      ((3, 5), (5, 5)),
      ((8, 5), (10, 5)),
      ((1, 6), (2, 6)),
      ((4, 6), (5, 6)),
      ((8, 6), (8, 6))]),
    ("East",
     [((11, 0), (11, 7)),
      ((1, 1), (1, 2)),
      ((3, 1), (3, 1)),
      ((5, 1), (5, 2)),
      ((6, 1), (6, 1)),
      ((9, 1), (9, 2)),
      ((10, 1), (10, 2)),
      ((2, 3), (2, 3)),
      ((4, 3), (4, 4)),
      ((7, 3), (7, 3)),
      ((9, 3), (9, 3)),
      ((1, 4), (1, 4)),
      ((3, 4), (3, 5)),
      ((6, 4), (6, 4)),
      ((9, 5), (9, 6)),
      ((10, 5), (10, 5)),
      ((2, 6), (2, 6)),
      ((5, 6), (5, 6))]),
    ("West",
     [((0, 0), (0, 7)),
      ((2, 1), (2, 2)),
      ((4, 1), (4, 1)),
      ((6, 1), (6, 2)),
      ((7, 1), (7, 1)),
      ((10, 1), (10, 2)),
      ((1, 1), (1, 1)),
      ((3, 3), (3, 3)),
      ((5, 3), (5, 4)),
      ((8, 3), (8, 3)),
      ((10, 3), (10, 3)),
      ((2, 4), (2, 4)),
      ((4, 4), (4, 5)),
      ((7, 4), (7, 4)),
      ((10, 5), (10, 6)),
      ((1, 5), (1, 5)),
      ((3, 6), (3, 6)),
      ((6, 6), (6, 6))])]⟩

/-- Spec-side (claim wording): the destination of a one-cell move, per the
stated coordinate arithmetic — North `y-1`, South `y+1`, East `x+1`, West
`x-1` — with the orientation carried over unchanged. -/
def spec_outcome (s : State) : MazeAction → State
  | .moveNorth => ⟨(s.position.1, s.position.2 - 1), s.orientation⟩
  | .moveSouth => ⟨(s.position.1, s.position.2 + 1), s.orientation⟩
  | .moveEast => ⟨(s.position.1 + 1, s.position.2), s.orientation⟩
  | .moveWest => ⟨(s.position.1 - 1, s.position.2), s.orientation⟩

/-- Spec-side (claim wording): the two actions perpendicular to a given
action — East/West for North/South actions, North/South for East/West
actions. -/
def spec_perpendicular : MazeAction → List MazeAction
  | .moveNorth => [.moveEast, .moveWest]
  | .moveSouth => [.moveEast, .moveWest]
  | .moveEast => [.moveNorth, .moveSouth]
  | .moveWest => [.moveNorth, .moveSouth]

/-! ### Helper lemmas -/

/-- The transition outcomes are exactly the intended-direction outcome with
`main_prob` followed by the two perpendicular outcomes with `slip_prob`. -/
theorem get_transition_outcomes_eq (tm : TransitionModel) (s : State)
    (a : MazeAction) :
    tm.get_transition_outcomes s a =
      some ((tm.main_prob, spec_outcome s a) ::
        (spec_perpendicular a).map (fun d => (tm.slip_prob, spec_outcome s d))) := by
  cases a <;> rfl

/-- Motion keeps the orientation. -/
theorem spec_outcome_orientation (s : State) (a : MazeAction) :
    (spec_outcome s a).orientation = s.orientation := by
  cases a <;> rfl

/-- The outcome-scan of `TransitionModel.probability` on a three-element
outcome list whose two slip entries share a probability. -/
theorem find_outcome_prob_three (ns : State) (p q : ℚ) (o1 o2 o3 : State) :
    find_outcome_prob ns [(p, o1), (q, o2), (q, o3)] =
      if ns = o1 then p else if ns = o2 ∨ ns = o3 then q else 0 := by
  by_cases h1 : ns = o1
  · simp [find_outcome_prob, h1]
  · by_cases h2 : ns = o2
    · simp [find_outcome_prob, h1, h2]
    · by_cases h3 : ns = o3 <;> simp [find_outcome_prob, h1, h2, h3]

/-- `_is_on_segment` is inclusive bounding-box containment. -/
theorem is_on_segment_iff (p : Pos) (seg : Segment) (d : String) :
    MazeMap.is_on_segment p seg d = true ↔
      (min seg.1.1 seg.2.1 ≤ p.1 ∧ p.1 ≤ max seg.1.1 seg.2.1 ∧
       min seg.1.2 seg.2.2 ≤ p.2 ∧ p.2 ≤ max seg.1.2 seg.2.2) := by
  unfold MazeMap.is_on_segment
  dsimp only
  split <;> simp_all

/-- Each possible one-step outcome keeps the orientation, lands on a
different cell, and moves exactly one coordinate by exactly one. -/
theorem spec_outcome_frame (s : State) (d : MazeAction) :
    (spec_outcome s d).orientation = s.orientation ∧
    (spec_outcome s d).position ≠ s.position ∧
    ((spec_outcome s d).position = (s.position.1, s.position.2 - 1) ∨
     (spec_outcome s d).position = (s.position.1, s.position.2 + 1) ∨
     (spec_outcome s d).position = (s.position.1 + 1, s.position.2) ∨
     (spec_outcome s d).position = (s.position.1 - 1, s.position.2)) := by
  cases d <;>
    refine ⟨rfl, fun hEq => ?_, by simp [spec_outcome]⟩ <;>
    · rw [Prod.ext_iff] at hEq
      obtain ⟨h1, h2⟩ := hEq
      simp only [spec_outcome] at h1 h2
      omega

/-- The cumulative selection succeeds on a three-outcome list whose
probabilities sum to 1 whenever the draw is below 1, and returns one of
the three states. -/
theorem select_cumulative_three (r p1 p2 p3 : ℚ) (s1 s2 s3 : State)
    (hsum : p1 + p2 + p3 = 1) (hr : r < 1) :
    ∃ ns, select_cumulative r 0 [(p1, s1), (p2, s2), (p3, s3)] = some ns ∧
      ns ∈ [s1, s2, s3] := by
  by_cases hA : r ≤ p1
  · exact ⟨s1, by simp [select_cumulative, hA], by simp⟩
  · by_cases hB : r ≤ p1 + p2
    · exact ⟨s2, by simp [select_cumulative, hA, hB], by simp⟩
    · have hC : r ≤ p1 + p2 + p3 := by linarith
      exact ⟨s3, by simp [select_cumulative, hA, hB, hC], by simp⟩

/-- Whatever the selection loop returns is one of the listed outcome
states. -/
theorem select_cumulative_mem (r : ℚ) (l : List (ℚ × State)) :
    ∀ (c : ℚ) (ns : State), select_cumulative r c l = some ns →
      ns ∈ l.map Prod.snd := by
  induction l with
  | nil => intro c ns h; simp [select_cumulative] at h
  | cons hd tl ih =>
      intro c ns h
      obtain ⟨p, n⟩ := hd
      by_cases hc : r ≤ c + p
      · simp only [select_cumulative, if_pos hc, Option.some.injEq] at h
        simp [h]
      · simp only [select_cumulative, if_neg hc] at h
        exact List.mem_cons_of_mem _ (ih _ _ h)

/-- The three outcome probabilities sum to exactly 1. -/
theorem outcomes_fst_sum (slip : ℚ) (m : Option MazeMap) (s : State)
    (a : MazeAction) :
    (((((TransitionModel.make slip m).main_prob, spec_outcome s a) ::
      (spec_perpendicular a).map
        (fun d => ((TransitionModel.make slip m).slip_prob,
          spec_outcome s d))).map Prod.fst).sum) = 1 := by
  cases a <;> simp [spec_perpendicular, TransitionModel.make] <;> ring

/-- The selection loop always yields a result on the outcome list when the
draw is below 1. -/
theorem outcomes_select_isSome (slip : ℚ) (m : Option MazeMap) (s : State)
    (a : MazeAction) (r : ℚ) (hr : r < 1) :
    (select_cumulative r 0
      (((TransitionModel.make slip m).main_prob, spec_outcome s a) ::
        (spec_perpendicular a).map
          (fun d => ((TransitionModel.make slip m).slip_prob,
            spec_outcome s d)))).isSome = true := by
  cases a <;>
    · obtain ⟨ns, hsel, _⟩ :=
        select_cumulative_three r (1 - 2 * slip) slip slip
          (spec_outcome s _) (spec_outcome s _) (spec_outcome s _)
          (by ring) hr
      simp only [spec_perpendicular, List.map_cons, List.map_nil]
      rw [show (TransitionModel.make slip m).main_prob = 1 - 2 * slip from rfl,
        show (TransitionModel.make slip m).slip_prob = slip from rfl, hsel]
      rfl

/-! ### Claim theorems -/

/-- Claim C1: `TransitionModel.probability ns s a` equals `1 - 2*slip_prob`
when `ns` is the outcome of moving one cell in the intended direction with
`s`'s orientation, `slip_prob` when `ns` is the outcome of moving one cell
in either perpendicular direction, and `0` for any other `ns`, including
any `ns` whose orientation differs from `s.orientation`; the three support
probabilities sum to exactly 1; concretely, with `slip_prob = 1/10`, from
state `((5,6), North)` under `MoveNorth` the probability of
`((5,5), North)` is `8/10` and of `((4,6), North)` and `((6,6), North)` is
`1/10` each. -/
theorem transition_probability_characterized (slip : ℚ) (m : Option MazeMap)
    (s ns : State) (a : MazeAction) :
    ((TransitionModel.make slip m).probability ns s a =
      some (if ns = spec_outcome s a then 1 - 2 * slip
            else if ns ∈ (spec_perpendicular a).map (spec_outcome s) then slip
            else 0)) ∧
    (ns.orientation ≠ s.orientation →
      (TransitionModel.make slip m).probability ns s a = some 0) ∧
    (∃ l, (TransitionModel.make slip m).get_transition_outcomes s a = some l ∧
      (l.map Prod.fst).sum = 1) ∧
    ((TransitionModel.make (1/10 : ℚ) (some create_example_maze)).probability
      ⟨(5, 5), "North"⟩ ⟨(5, 6), "North"⟩ .moveNorth = some (8/10)) ∧
    ((TransitionModel.make (1/10 : ℚ) (some create_example_maze)).probability
      ⟨(4, 6), "North"⟩ ⟨(5, 6), "North"⟩ .moveNorth = some (1/10)) ∧
    ((TransitionModel.make (1/10 : ℚ) (some create_example_maze)).probability
      ⟨(6, 6), "North"⟩ ⟨(5, 6), "North"⟩ .moveNorth = some (1/10)) := by
  have hchar : (TransitionModel.make slip m).probability ns s a =
      some (if ns = spec_outcome s a then 1 - 2 * slip
            else if ns ∈ (spec_perpendicular a).map (spec_outcome s) then slip
            else 0) := by
    rw [TransitionModel.probability, get_transition_outcomes_eq]
    cases a <;>
      simp only [spec_perpendicular, List.map_cons, List.map_nil,
        Option.map_some', find_outcome_prob_three, List.mem_cons,
        List.not_mem_nil, or_false, TransitionModel.make]
  have hconc : ∀ ns0 : State,
      (TransitionModel.make (1/10 : ℚ) (some create_example_maze)).probability
        ns0 ⟨(5, 6), "North"⟩ .moveNorth =
      some (if ns0 = (⟨(5, 5), "North"⟩ : State) then 8/10
            else if ns0 = (⟨(6, 6), "North"⟩ : State) ∨
                ns0 = (⟨(4, 6), "North"⟩ : State) then 1/10
            else 0) := by
    intro ns0
    rw [TransitionModel.probability, get_transition_outcomes_eq]
    simp only [spec_perpendicular, List.map_cons, List.map_nil,
      Option.map_some', find_outcome_prob_three, TransitionModel.make,
      spec_outcome]
    norm_num
  refine ⟨hchar, ?_, ?_,
    by rw [hconc]; norm_num [State.mk.injEq, Prod.mk.injEq],
    by rw [hconc]; norm_num [State.mk.injEq, Prod.mk.injEq],
    by rw [hconc]; norm_num [State.mk.injEq, Prod.mk.injEq]⟩
  · intro hne
    rw [hchar]
    have h1 : ns ≠ spec_outcome s a := by
      intro h
      exact hne (h ▸ spec_outcome_orientation s a)
    have h2 : ns ∉ (spec_perpendicular a).map (spec_outcome s) := by
      intro hmem
      rw [List.mem_map] at hmem
      obtain ⟨d, _, hd⟩ := hmem
      exact hne (hd ▸ spec_outcome_orientation s d)
    rw [if_neg h1, if_neg h2]
  · refine ⟨_, get_transition_outcomes_eq _ s a, ?_⟩
    cases a <;>
      simp [spec_perpendicular, TransitionModel.make] <;> ring

/-- Claim C1 witness: the characterization applied to the reference
scenario gives probability `8/10` for the intended outcome. -/
theorem transition_probability_characterized_witness :
    (TransitionModel.make (1/10 : ℚ) (some create_example_maze)).probability
      ⟨(5, 5), "North"⟩ ⟨(5, 6), "North"⟩ .moveNorth = some (8/10) :=
  (transition_probability_characterized (1/10) (some create_example_maze)
    ⟨(5, 6), "North"⟩ ⟨(5, 5), "North"⟩ .moveNorth).2.2.2.1

/-- Claim C2: for every direction `d` registered in `walls`,
`has_wall(p, d)` is true iff some registered segment for `d` contains `p`
in its inclusive bounding box, a test independent of the order of the two
endpoints. -/
theorem has_wall_region_containment (m : MazeMap) (p : Pos) (d : String)
    (segs : List Segment) (h : m.walls.lookup d = some segs) :
    (m.has_wall p d = true ↔
      ∃ seg ∈ segs,
        min seg.1.1 seg.2.1 ≤ p.1 ∧ p.1 ≤ max seg.1.1 seg.2.1 ∧
        min seg.1.2 seg.2.2 ≤ p.2 ∧ p.2 ≤ max seg.1.2 seg.2.2) ∧
    (∀ q r : Pos, MazeMap.is_on_segment p (q, r) d =
      MazeMap.is_on_segment p (r, q) d) := by
  constructor
  · have hw : m.has_wall p d =
        segs.any (fun ws => MazeMap.is_on_segment p ws d) := by
      unfold MazeMap.has_wall
      rw [h]
    rw [hw, List.any_eq_true]
    constructor
    · rintro ⟨seg, hseg, hc⟩
      exact ⟨seg, hseg, (is_on_segment_iff p seg d).mp hc⟩
    · rintro ⟨seg, hseg, hc⟩
      exact ⟨seg, hseg, (is_on_segment_iff p seg d).mpr hc⟩
  · intro q r
    unfold MazeMap.is_on_segment
    simp only [min_comm, max_comm]

/-- Claim C2 witness: on the reference maze, the registered East segment
`((5,1),(5,2))` makes `has_wall((5,2), East)` true. -/
theorem has_wall_region_containment_witness :
    create_example_maze.has_wall (5, 2) "East" = true :=
  (has_wall_region_containment create_example_maze (5, 2) "East" _ rfl).1.mpr
    ⟨((5, 1), (5, 2)), by decide, by decide⟩

/-- Claim C3: `ObservationModel.sample` is deterministic (it ignores the
action and is a function of the state), produces the wall 4-tuple in the
canonical (North, East, South, West) order, copies the orientation, and
tags the landmark `"Goal"` (taking precedence) / `"Start"` / `None` by
position equality; on the reference maze the goal cell `(5,2)` yields
landmark `"Goal"`. -/
theorem observation_sample_deterministic_form (om : ObservationModel)
    (s : State) (a b : MazeAction) :
    (om.sample s a = om.sample s b) ∧
    (om.sample s a =
      ⟨(om.maze_map.has_wall s.position "North",
        om.maze_map.has_wall s.position "East",
        om.maze_map.has_wall s.position "South",
        om.maze_map.has_wall s.position "West"),
       s.orientation,
       if s.position = om.maze_map.goal then some "Goal"
       else if s.position = om.maze_map.start then some "Start"
       else none⟩) ∧
    ((ObservationModel.mk create_example_maze).sample
      ⟨(5, 2), "South"⟩ .moveNorth).location = some "Goal" :=
  ⟨rfl, rfl, by decide⟩

/-- Claim C4: `RewardModel.sample` returns `goal_reward` when the next
position is the goal (independently of `state` and `action`, taking
precedence over the stay-in-place test), else `-wall_penalty` when the
position did not change, else `-step_penalty`; on the reference maze the
step `((5,6),North) → ((5,5),North)` yields `-step_penalty`. -/
theorem reward_sample_cases (rm : RewardModel) (s : State) (a : MazeAction)
    (ns : State) :
    (rm.sample s a ns =
      if ns.position = rm.maze_map.goal then rm.goal_reward
      else if ns.position = s.position then -rm.wall_penalty
      else -rm.step_penalty) ∧
    ((RewardModel.mk create_example_maze 10 1 5).sample
      ⟨(5, 6), "North"⟩ .moveNorth ⟨(5, 5), "North"⟩ =
      -(RewardModel.mk create_example_maze 10 1 5).step_penalty) := by
  refine ⟨rfl, ?_⟩
  norm_num [RewardModel.sample, RewardModel.reward_func, create_example_maze,
    Prod.mk.injEq]

/-- Claim C5: every transition outcome keeps the state's orientation and
has a position differing from the state's in exactly one coordinate by
exactly 1 (North `y-1`, South `y+1`, East `x+1`, West `x-1`), so it always
differs from the current position; the outcomes are computed without
consulting the maze map (wall geometry). -/
theorem transition_outcomes_frame (tm : TransitionModel) (s : State)
    (a : MazeAction) :
    ∃ l, tm.get_transition_outcomes s a = some l ∧
      (∀ pr ∈ l, pr.2.orientation = s.orientation ∧
        pr.2.position ≠ s.position ∧
        (pr.2.position = (s.position.1, s.position.2 - 1) ∨
         pr.2.position = (s.position.1, s.position.2 + 1) ∨
         pr.2.position = (s.position.1 + 1, s.position.2) ∨
         pr.2.position = (s.position.1 - 1, s.position.2))) ∧
      (∀ m2 : Option MazeMap,
        (TransitionModel.mk tm.slip_prob tm.main_prob m2).get_transition_outcomes
          s a = some l) ∧
      move_in_direction s.position "North" =
        some (s.position.1, s.position.2 - 1) ∧
      move_in_direction s.position "South" =
        some (s.position.1, s.position.2 + 1) ∧
      move_in_direction s.position "East" =
        some (s.position.1 + 1, s.position.2) ∧
      move_in_direction s.position "West" =
        some (s.position.1 - 1, s.position.2) := by
  refine ⟨_, get_transition_outcomes_eq tm s a, ?_,
    fun m2 => get_transition_outcomes_eq _ s a, rfl, rfl, rfl, rfl⟩
  intro pr hpr
  simp only [List.mem_cons, List.mem_map] at hpr
  rcases hpr with rfl | ⟨d, _, rfl⟩
  · exact spec_outcome_frame s a
  · exact spec_outcome_frame s d

/-- Claim C5 witness: the frame property at the reference state
`((5,6), North)` under `MoveNorth`. -/
theorem transition_outcomes_frame_witness :
    ∃ l, (TransitionModel.make (1/10 : ℚ)
        (some create_example_maze)).get_transition_outcomes
        ⟨(5, 6), "North"⟩ .moveNorth = some l ∧
      (∀ pr ∈ l, pr.2.orientation = "North" ∧
        pr.2.position ≠ ((5 : Int), (6 : Int)) ∧
        (pr.2.position = ((5 : Int), (5 : Int)) ∨
         pr.2.position = ((5 : Int), (7 : Int)) ∨
         pr.2.position = ((6 : Int), (6 : Int)) ∨
         pr.2.position = ((4 : Int), (6 : Int)))) ∧
      (∀ m2 : Option MazeMap,
        (TransitionModel.mk (1/10 : ℚ) (1 - 2 * (1/10 : ℚ))
          m2).get_transition_outcomes ⟨(5, 6), "North"⟩ .moveNorth = some l) ∧
      move_in_direction (5, 6) "North" = some ((5 : Int), (5 : Int)) ∧
      move_in_direction (5, 6) "South" = some ((5 : Int), (7 : Int)) ∧
      move_in_direction (5, 6) "East" = some ((6 : Int), (6 : Int)) ∧
      move_in_direction (5, 6) "West" = some ((4 : Int), (6 : Int)) :=
  transition_outcomes_frame
    (TransitionModel.make (1/10) (some create_example_maze))
    ⟨(5, 6), "North"⟩ .moveNorth

/-- Claim C6: `ObservationModel.probability` is 1 exactly when the
observation equals `ObservationModel.sample` of the state, 0 otherwise; in
particular the sampled observation always has probability 1. -/
theorem observation_probability_exact (om : ObservationModel)
    (o : Observation) (s : State) (a : MazeAction) :
    (om.probability o s a = if o = om.sample s a then 1 else 0) ∧
    om.probability (om.sample s a) s a = 1 := by
  refine ⟨rfl, ?_⟩
  simp [ObservationModel.probability, ObservationModel.sample]

/-- Claim C7: for a uniform draw `r` in `[0, 1)`, the cumulative selection
in `TransitionModel.sample` always yields a result inside the loop (the
probabilities sum to exactly 1, so the fallback is unreachable), and the
sampled state is one of the three support outcomes. -/
theorem transition_sample_within_support (slip : ℚ) (m : Option MazeMap)
    (s : State) (a : MazeAction) (r : ℚ) (h0 : 0 ≤ r) (h1 : r < 1) :
    ∃ l, (TransitionModel.make slip m).get_transition_outcomes s a =
        some l ∧
      (l.map Prod.fst).sum = 1 ∧
      (select_cumulative r 0 l).isSome = true ∧
      ∀ ns, (TransitionModel.make slip m).sample s a r = some ns →
        ns ∈ l.map Prod.snd := by
  refine ⟨_, get_transition_outcomes_eq _ s a, outcomes_fst_sum slip m s a,
    outcomes_select_isSome slip m s a r h1, ?_⟩
  intro ns hns
  unfold TransitionModel.sample at hns
  rw [get_transition_outcomes_eq] at hns
  dsimp only at hns
  obtain ⟨ns0, hns0⟩ := Option.isSome_iff_exists.mp
    (outcomes_select_isSome slip m s a r h1)
  rw [hns0] at hns
  dsimp only at hns
  rw [Option.some.injEq] at hns
  subst hns
  exact select_cumulative_mem r _ 0 ns0 hns0

/-- Claim C7 witness: drawing `r = 1/2` from state `((5,6), North)` under
`MoveNorth` with slip `1/10`. -/
theorem transition_sample_within_support_witness :
    (0 : ℚ) ≤ 1/2 ∧ (1 : ℚ)/2 < 1 ∧
    ∃ l, (TransitionModel.make (1/10 : ℚ)
        (some create_example_maze)).get_transition_outcomes
        ⟨(5, 6), "North"⟩ .moveNorth = some l ∧
      (l.map Prod.fst).sum = 1 ∧
      (select_cumulative (1/2) 0 l).isSome = true ∧
      ∀ ns, (TransitionModel.make (1/10 : ℚ) (some create_example_maze)).sample
          ⟨(5, 6), "North"⟩ .moveNorth (1/2) = some ns →
        ns ∈ l.map Prod.snd :=
  ⟨by norm_num, by norm_num,
   transition_sample_within_support (1/10) (some create_example_maze)
     ⟨(5, 6), "North"⟩ .moveNorth (1/2) (by norm_num) (by norm_num)⟩

/-- Claim C8: `MazeMap` construction fails with a `ValueError` iff some
walls key lies outside the four canonical directions; when construction
succeeds the stored `start`, `goal` and `walls` are exactly the
constructor arguments. -/
theorem mazemap_construction_validates (start goal : Pos)
    (walls : List (String × List Segment)) :
    ((∃ e, MazeMap.make start goal walls = Except.error e) ↔
      ∃ kv ∈ walls, kv.1 ∉ valid_dirs) ∧
    (∀ m, MazeMap.make start goal walls = Except.ok m →
      m.start = start ∧ m.goal = goal ∧ m.walls = walls) := by
  have hmem : ∀ d : String, valid_dirs.contains d = true ↔ d ∈ valid_dirs := by
    intro d
    exact List.elem_iff
  by_cases hall : walls.all (fun kv => valid_dirs.contains kv.1) = true
  · have hmk : MazeMap.make start goal walls =
        Except.ok ⟨start, goal, walls⟩ := if_pos hall
    refine ⟨⟨?_, ?_⟩, ?_⟩
    · rintro ⟨e, he⟩
      rw [hmk] at he
      cases he
    · rintro ⟨kv, hkv, hnot⟩
      exfalso
      rw [List.all_eq_true] at hall
      exact hnot ((hmem kv.1).mp (hall kv hkv))
    · intro m hm
      rw [hmk] at hm
      cases hm
      exact ⟨rfl, rfl, rfl⟩
  · have hfalse : walls.all (fun kv => valid_dirs.contains kv.1) = false :=
      Bool.eq_false_iff.mpr hall
    have hmk : MazeMap.make start goal walls =
        Except.error "Wall directions must be in valid_dirs" := if_neg hall
    refine ⟨⟨?_, ?_⟩, ?_⟩
    · intro _
      rw [List.all_eq_true] at hall
      push_neg at hall
      obtain ⟨kv, hkv, hf⟩ := hall
      exact ⟨kv, hkv, fun hmem0 => hf ((hmem kv.1).mpr hmem0)⟩
    · intro _
      exact ⟨_, hmk⟩
    · intro m hm
      rw [hmk] at hm
      cases hm

/-- Claim C8 witness: a walls dictionary with the non-canonical key
`"Up"` makes construction fail. -/
theorem mazemap_construction_validates_witness :
    ∃ e, MazeMap.make (0, 0) (1, 1) [("Up", [])] = Except.error e :=
  (mazemap_construction_validates (0, 0) (1, 1) [("Up", [])]).1.mpr
    ⟨("Up", []), by simp, by decide⟩

/-- Claim C9: on the reference maze, the goal cell observation
`sample(State((5,2), South))` has `location = "Goal"` under the active
position-equality scheme, while the unused pattern-matching scheme
`Observation.is_goal` returns `False` on the same observation, because the
actual wall flags at `(5,2)` are `(North := false, East := true,
South := true, West := false)`. -/
theorem landmark_schemes_disagree :
    (((ObservationModel.mk create_example_maze).sample
        ⟨(5, 2), "South"⟩ .moveNorth).location = some "Goal") ∧
    (((ObservationModel.mk create_example_maze).sample
        ⟨(5, 2), "South"⟩ .moveNorth).is_goal = false) ∧
    (((ObservationModel.mk create_example_maze).sample
        ⟨(5, 2), "South"⟩ .moveNorth).walls =
      (false, true, true, false)) := by
  decide

/-- Claim C10: `has_wall` returns `False` (without any failure) whenever
the direction is not a key of the walls dictionary, for any direction
string whatsoever — direction validity is enforced only at construction
time. -/
theorem has_wall_unregistered_direction_false (m : MazeMap) (p : Pos)
    (d : String) (h : m.walls.lookup d = none) :
    m.has_wall p d = false := by
  unfold MazeMap.has_wall
  rw [h]

/-- Claim C10 witness: querying the non-canonical direction `"Up"` on the
reference maze returns `False`. -/
theorem has_wall_unregistered_direction_false_witness :
    create_example_maze.has_wall (0, 0) "Up" = false :=
  has_wall_unregistered_direction_false create_example_maze (0, 0) "Up" rfl

end Maze
